import Mathlib

/-!
Verification of the face-recognition attendance system (`app.py`).

The Python source is shallowly embedded: the SQLite tables become lists of
records, the ambient clock (`datetime.now()`) becomes explicit `today` /
`current_time` parameters, and the external `face_recognition` library calls
(face detection, encoding, distance computation) become abstract inputs, since
that library is an external collaborator rather than repository code.
-/

namespace FaceAttendance

/-- A row of the `attendance` table (`init_database`, app.py lines 51-62).
`check_in_time` is nullable in the schema; timestamps are modelled as `Int`. -/
structure AttendanceRecord where
  employee_id : String
  check_in_time : Option Int
  check_out_time : Option Int
  date : Int
  status : String
deriving DecidableEq, Repr

/-- A row of the `employees` table (app.py lines 38-48); the JSON-serialised
face encoding is kept as the vector it encodes. -/
structure Employee where
  employee_id : String
  name : String
  email : String
  department : String
  face_encoding : List ℚ
deriving DecidableEq, Repr

/-- The persistent database state: both tables, rows in insertion order. -/
structure DBState where
  employees : List Employee
  attendance : List AttendanceRecord
deriving DecidableEq, Repr

/-- The `{'success': ..., 'message': ...}` dictionaries returned by
`DatabaseManager.mark_attendance` and friends. -/
structure MarkResult where
  success : Bool
  message : String
deriving DecidableEq, Repr

/-- `SELECT * FROM attendance WHERE employee_id = ? AND date = ?` followed by
`fetchone()` (app.py line 105): the first matching row, if any. -/
def findRecord (atts : List AttendanceRecord) (eid : String) (d : Int) :
    Option AttendanceRecord :=
  atts.find? (fun r => r.employee_id = eid ∧ r.date = d)

/-- `DatabaseManager.mark_attendance` (app.py lines 100-121).  `today` and
`current_time` stand for the two `datetime.now()` reads; the function returns
the result dictionary together with the updated database state. -/
def mark_attendance (db : DBState) (employee_id : String)
    (attendance_type : String) (today current_time : Int) :
    MarkResult × DBState :=
  match findRecord db.attendance employee_id today with
  | some existing_record =>
    if attendance_type = "check_out" ∧ existing_record.check_out_time = none then
      (⟨true, "Check-out recorded successfully"⟩,
       { db with attendance := db.attendance.map (fun r =>
           if r.employee_id = employee_id ∧ r.date = today then
             { r with check_out_time := some current_time }
           else r) })
    else
      (⟨false, "Attendance already recorded for today"⟩, db)
  | none =>
    if attendance_type = "check_in" then
      (⟨true, "Check-in recorded successfully"⟩,
       { db with attendance := db.attendance ++
           [⟨employee_id, some current_time, none, today, "present"⟩] })
    else
      (⟨false, "Must check-in first"⟩, db)

/-! ### Helper lemmas about `findRecord` -/

theorem find?_append_of_none {α : Type} (p : α → Bool) (l₁ l₂ : List α)
    (h : l₁.find? p = none) : (l₁ ++ l₂).find? p = l₂.find? p := by
  induction l₁ with
  | nil => rfl
  | cons a l ih =>
    by_cases hp : p a = true
    · rw [List.find?_cons_of_pos _ hp] at h
      exact absurd h (by simp)
    · rw [List.find?_cons_of_neg _ hp] at h
      rw [List.cons_append, List.find?_cons_of_neg _ hp]
      exact ih h

theorem find?_map_of_pred {α : Type} (p : α → Bool) (f : α → α) (l : List α)
    (hf : ∀ a, p (f a) = p a) : (l.map f).find? p = (l.find? p).map f := by
  induction l with
  | nil => rfl
  | cons a l ih =>
    by_cases hp : p a = true
    · rw [List.map_cons, List.find?_cons_of_pos _ (by rw [hf a]; exact hp),
        List.find?_cons_of_pos _ hp]
      rfl
    · rw [List.map_cons, List.find?_cons_of_neg _ (by rw [hf a]; exact hp),
        List.find?_cons_of_neg _ hp]
      exact ih

theorem findRecord_append_single (atts : List AttendanceRecord)
    (eid : String) (d : Int) (r : AttendanceRecord)
    (h : findRecord atts eid d = none)
    (hr : r.employee_id = eid ∧ r.date = d) :
    findRecord (atts ++ [r]) eid d = some r := by
  unfold findRecord at h ⊢
  rw [find?_append_of_none _ _ _ h]
  simp [List.find?_cons, hr.1, hr.2]

theorem findRecord_update (atts : List AttendanceRecord)
    (eid : String) (d : Int) (t : Int) :
    findRecord (atts.map (fun r =>
        if r.employee_id = eid ∧ r.date = d then
          { r with check_out_time := some t }
        else r)) eid d
      = (findRecord atts eid d).map (fun r =>
          if r.employee_id = eid ∧ r.date = d then
            { r with check_out_time := some t }
          else r) := by
  unfold findRecord
  apply find?_map_of_pred
  intro a
  by_cases ha : a.employee_id = eid ∧ a.date = d
  · simp [ha]
  · simp [ha]

/-! ### Shared lemmas about the four branches of `mark_attendance` -/

theorem markAtt_none_checkin (db : DBState) (eid : String) (today ct : Int)
    (h : findRecord db.attendance eid today = none) :
    mark_attendance db eid "check_in" today ct =
      (⟨true, "Check-in recorded successfully"⟩,
       { db with attendance := db.attendance ++
           [⟨eid, some ct, none, today, "present"⟩] }) ∧
    findRecord (mark_attendance db eid "check_in" today ct).2.attendance eid today
      = some ⟨eid, some ct, none, today, "present"⟩ := by
  constructor
  · simp [mark_attendance, h]
  · simp only [mark_attendance, h]
    simp only [reduceIte]
    exact findRecord_append_single db.attendance eid today _ h ⟨rfl, rfl⟩

theorem markAtt_none_other (db : DBState) (eid ty : String) (today ct : Int)
    (h : findRecord db.attendance eid today = none) (hty : ty ≠ "check_in") :
    mark_attendance db eid ty today ct = (⟨false, "Must check-in first"⟩, db) := by
  simp [mark_attendance, h, hty]

theorem markAtt_some_checkout (db : DBState) (eid : String) (today ct : Int)
    (r : AttendanceRecord) (h : findRecord db.attendance eid today = some r)
    (hco : r.check_out_time = none) :
    (mark_attendance db eid "check_out" today ct).1 =
      ⟨true, "Check-out recorded successfully"⟩ ∧
    findRecord (mark_attendance db eid "check_out" today ct).2.attendance eid today
      = some { r with check_out_time := some ct } := by
  constructor
  · simp [mark_attendance, h, hco]
  · simp only [mark_attendance, h, hco]
    simp only [reduceIte, true_and]
    rw [findRecord_update, h]
    have hr : r.employee_id = eid ∧ r.date = today := by
      have := List.find?_some h
      simpa using this
    simp [hr]

theorem markAtt_some_closed (db : DBState) (eid ty : String) (today ct : Int)
    (r : AttendanceRecord) (h : findRecord db.attendance eid today = some r)
    (hcond : ¬ (ty = "check_out" ∧ r.check_out_time = none)) :
    mark_attendance db eid ty today ct =
      (⟨false, "Attendance already recorded for today"⟩, db) := by
  simp [mark_attendance, h, hcond]

/-- Claim C1: for every identity and date the ledger follows the
`NO_RECORD → CHECKED_IN → CHECKED_OUT` state machine: from `NO_RECORD` a
check-in creates the record and succeeds while a check-out is rejected with
"Must check-in first" and creates no record; a check-in over an existing
record is rejected with "Attendance already recorded for today"; from
`CHECKED_IN` (record present, `check_out_time` null) a check-out sets
`check_out_time` and succeeds; from `CHECKED_OUT` every further event is
rejected with "Attendance already recorded for today" and changes nothing. -/
theorem ledger_state_machine (db : DBState) (eid ty : String) (today ct : Int) :
    (findRecord db.attendance eid today = none →
      mark_attendance db eid "check_in" today ct =
        (⟨true, "Check-in recorded successfully"⟩,
         { db with attendance := db.attendance ++
             [⟨eid, some ct, none, today, "present"⟩] }) ∧
      findRecord (mark_attendance db eid "check_in" today ct).2.attendance eid today
        = some ⟨eid, some ct, none, today, "present"⟩) ∧
    (findRecord db.attendance eid today = none →
      mark_attendance db eid "check_out" today ct =
        (⟨false, "Must check-in first"⟩, db)) ∧
    (∀ r, findRecord db.attendance eid today = some r →
      mark_attendance db eid "check_in" today ct =
        (⟨false, "Attendance already recorded for today"⟩, db)) ∧
    (∀ r, findRecord db.attendance eid today = some r → r.check_out_time = none →
      (mark_attendance db eid "check_out" today ct).1 =
        ⟨true, "Check-out recorded successfully"⟩ ∧
      findRecord (mark_attendance db eid "check_out" today ct).2.attendance eid today
        = some { r with check_out_time := some ct }) ∧
    (∀ r t, findRecord db.attendance eid today = some r →
      r.check_out_time = some t →
      mark_attendance db eid ty today ct =
        (⟨false, "Attendance already recorded for today"⟩, db)) := by
  refine ⟨?_, ?_, ?_, ?_, ?_⟩
  · intro h
    exact markAtt_none_checkin db eid today ct h
  · intro h
    exact markAtt_none_other db eid "check_out" today ct h (by decide)
  · intro r h
    exact markAtt_some_closed db eid "check_in" today ct r h
      (by rintro ⟨hc, -⟩; exact absurd hc (by decide))
  · intro r h hco
    exact markAtt_some_checkout db eid today ct r h hco
  · intro r t h hco
    refine markAtt_some_closed db eid ty today ct r h ?_
    rintro ⟨-, h2⟩
    rw [hco] at h2
    exact Option.noConfusion h2

/-- Witness for C1: on an empty ledger, a check-out for E1 on day 0 is
rejected with "Must check-in first" and leaves the state unchanged. -/
theorem ledger_state_machine_witness :
    mark_attendance ⟨[], []⟩ "E1" "check_out" 0 5 =
      (⟨false, "Must check-in first"⟩, ⟨[], []⟩) :=
  (ledger_state_machine ⟨[], []⟩ "E1" "check_out" 0 5).2.1 rfl

/-- Claim C10: any attendance event type other than `check_in` and
`check_out` is rejected — `mark_attendance` returns a failure and the store
is unchanged: no record created, no record modified. -/
theorem unknown_event_type_rejected (db : DBState) (eid ty : String)
    (today ct : Int) (h1 : ty ≠ "check_in") (h2 : ty ≠ "check_out") :
    (mark_attendance db eid ty today ct).1.success = false ∧
    (mark_attendance db eid ty today ct).2 = db := by
  unfold mark_attendance
  cases hfind : findRecord db.attendance eid today with
  | some r =>
    have hcond : ¬ (ty = "check_out" ∧ r.check_out_time = none) := by
      rintro ⟨hc, -⟩
      exact h2 hc
    simp [hcond]
  | none =>
    simp [h1]

/-- Witness for C10: a "lunch" event on a one-record ledger fails and
leaves the database untouched. -/
theorem unknown_event_type_rejected_witness :
    (mark_attendance ⟨[], [⟨"E1", some 1, none, 0, "present"⟩]⟩
        "E1" "lunch" 0 2).1.success = false ∧
    (mark_attendance ⟨[], [⟨"E1", some 1, none, 0, "present"⟩]⟩
        "E1" "lunch" 0 2).2 = ⟨[], [⟨"E1", some 1, none, 0, "present"⟩]⟩ :=
  unknown_event_type_rejected ⟨[], [⟨"E1", some 1, none, 0, "present"⟩]⟩
    "E1" "lunch" 0 2 (by decide) (by decide)

/-- Counterexample to claim C5: with a `CHECKED_IN` record whose
`check_in_time` is 10, a check-out at time 5 (strictly before check-in) is
NOT rejected with `InvalidOrdering`: it succeeds and stores
`check_out_time = 5`. -/
theorem checkout_before_checkin_accepted :
    (mark_attendance ⟨[], [⟨"E1", some 10, none, 0, "present"⟩]⟩
        "E1" "check_out" 0 5).1.success = true ∧
    findRecord (mark_attendance ⟨[], [⟨"E1", some 10, none, 0, "present"⟩]⟩
        "E1" "check_out" 0 5).2.attendance "E1" 0
      = some ⟨"E1", some 10, some 5, 0, "present"⟩ := by
  constructor
  · rfl
  · rfl

/-- Claim C5 amended: a check-out on a `CHECKED_IN` record always succeeds
and sets `check_out_time` to the given time, for EVERY time — including
times strictly before `check_in_time`; the code performs no ordering check
and has no `InvalidOrdering` failure. -/
theorem checkout_ignores_ordering (db : DBState) (eid : String)
    (today ct : Int) (r : AttendanceRecord)
    (h : findRecord db.attendance eid today = some r)
    (hco : r.check_out_time = none) :
    (mark_attendance db eid "check_out" today ct).1 =
      ⟨true, "Check-out recorded successfully"⟩ ∧
    findRecord (mark_attendance db eid "check_out" today ct).2.attendance eid today
      = some { r with check_out_time := some ct } :=
  markAtt_some_checkout db eid today ct r h hco

/-- Witness for the amended C5: check-in recorded at time 10, check-out at
the earlier time 5 succeeds and is stored. -/
theorem checkout_ignores_ordering_witness :
    (mark_attendance ⟨[], [⟨"E1", some 10, none, 0, "present"⟩]⟩
        "E1" "check_out" 0 5).1 =
      ⟨true, "Check-out recorded successfully"⟩ := by
  have h := checkout_ignores_ordering
    ⟨[], [⟨"E1", some 10, none, 0, "present"⟩]⟩ "E1" 0 5
    ⟨"E1", some 10, none, 0, "present"⟩ rfl rfl
  exact h.1

/-! ### Attendance summary (`DatabaseManager.get_attendance_summary`,
app.py lines 135-163) -/

/-- Round-half-even to an integer, matching Python 3 `round`. -/
def roundHalfEven (q : ℚ) : Int :=
  if q - ⌊q⌋ < 1/2 then ⌊q⌋
  else if 1/2 < q - ⌊q⌋ then ⌊q⌋ + 1
  else if ⌊q⌋ % 2 = 0 then ⌊q⌋ else ⌊q⌋ + 1

/-- Python `round(x, 1)`: round to one decimal place. -/
def pyRound1 (q : ℚ) : ℚ := (roundHalfEven (q * 10) : ℚ) / 10

/-- The dictionary returned by `get_attendance_summary`. -/
structure Summary where
  present_today : Nat
  total_employees : Nat
  absent_today : Int
  avg_attendance : ℚ
deriving DecidableEq, Repr

/-- The rows selected by
`WHERE date >= ? AND check_in_time IS NOT NULL` (app.py line 151). -/
def weeklyFiltered (atts : List AttendanceRecord) (week_start : Int) :
    List AttendanceRecord :=
  atts.filter (fun r => week_start ≤ r.date ∧ r.check_in_time ≠ none)

/-- The groups produced by `GROUP BY DATE(date)` (app.py line 152):
the distinct dates occurring among the selected rows. -/
def groupDays (l : List AttendanceRecord) : List Int :=
  (l.map (fun r => r.date)).dedup

/-- The per-group `COUNT(*)` values `daily_count` (app.py line 149). -/
def dailyCounts (l : List AttendanceRecord) : List Nat :=
  (groupDays l).map (fun d => (l.filter (fun r => r.date = d)).length)

/-- The `AVG(daily_count)` subquery (app.py lines 146-154): the sum of the
group counts divided by the number of groups, `NULL` (handled by the
Python-side `or 0`) when there are no groups at all. -/
def avgAttendance (atts : List AttendanceRecord) (week_start : Int) : ℚ :=
  if (dailyCounts (weeklyFiltered atts week_start)).length = 0 then 0
  else ((dailyCounts (weeklyFiltered atts week_start)).sum : ℚ) /
    ((dailyCounts (weeklyFiltered atts week_start)).length : ℚ)

/-- `DatabaseManager.get_attendance_summary` (app.py lines 135-163). -/
def get_attendance_summary (db : DBState) (today : Int) : Summary :=
  { present_today := (db.attendance.filter
      (fun r => r.date = today ∧ r.check_in_time ≠ none)).length
    total_employees := db.employees.length
    absent_today := (db.employees.length : Int) -
      ((db.attendance.filter
        (fun r => r.date = today ∧ r.check_in_time ≠ none)).length : Int)
    avg_attendance := pyRound1 (avgAttendance db.attendance (today - 7)) }

/-- A week of attendance with daily present counts 3, 0, 2, 0, 0, 0, 1
(dates 1, 3 and 6 have records; the other days of the window are empty). -/
def exampleWeekDB : DBState :=
  { employees := []
    attendance :=
      [⟨"E1", some 10, none, 1, "present"⟩,
       ⟨"E2", some 11, none, 1, "present"⟩,
       ⟨"E3", some 12, none, 1, "present"⟩,
       ⟨"E1", some 30, none, 3, "present"⟩,
       ⟨"E2", some 31, none, 3, "present"⟩,
       ⟨"E1", some 60, none, 6, "present"⟩] }

theorem pyRound1_two : pyRound1 2 = 2 := by
  unfold pyRound1 roundHalfEven
  norm_num

theorem pyRound1_six_sevenths : pyRound1 (6 / 7) = 9 / 10 := by
  unfold pyRound1 roundHalfEven
  norm_num

/-- Counterexample to claim C3: with presence counts `[3,0,2,0,0,0,1]` over
the trailing window the code reports an average of `6/3 = 2.0` — empty days
are dropped by `GROUP BY` and do NOT count in the denominator — while the
claim demands `6/7`, which rounds to `0.9`. -/
theorem avg_attendance_counterexample :
    (get_attendance_summary exampleWeekDB 7).avg_attendance = 2 ∧
    pyRound1 (6 / 7 : ℚ) = 9 / 10 ∧
    (2 : ℚ) ≠ 9 / 10 := by
  refine ⟨?_, pyRound1_six_sevenths, by norm_num⟩
  have hc : dailyCounts (weeklyFiltered exampleWeekDB.attendance ((7 : Int) - 7))
      = [3, 2, 1] := by decide
  have ha : avgAttendance exampleWeekDB.attendance ((7 : Int) - 7) = 2 := by
    unfold avgAttendance
    rw [hc]
    norm_num
  show pyRound1 (avgAttendance exampleWeekDB.attendance ((7 : Int) - 7)) = 2
  rw [ha, pyRound1_two]

theorem length_filter_split {α : Type} (p : α → Bool) (l : List α) :
    (l.filter p).length + (l.filter (fun a => ! p a)).length = l.length := by
  induction l with
  | nil => rfl
  | cons a l ih =>
    cases hp : p a
    · simp [List.filter_cons, hp]
      omega
    · simp [List.filter_cons, hp]
      omega

theorem sum_counts_of_cover (days : List Int) (l : List AttendanceRecord)
    (hnd : days.Nodup) (hcov : ∀ r ∈ l, r.date ∈ days) :
    (days.map (fun d => (l.filter (fun r => r.date = d)).length)).sum
      = l.length := by
  induction days generalizing l with
  | nil =>
    cases l with
    | nil => rfl
    | cons r l => exact absurd (hcov r (List.mem_cons_self r l)) (by simp)
  | cons d rest ih =>
    have hnd' : rest.Nodup := (List.nodup_cons.mp hnd).2
    have hdr : d ∉ rest := (List.nodup_cons.mp hnd).1
    set l' := l.filter (fun r => ! decide (r.date = d)) with hl'
    have hcov' : ∀ r ∈ l', r.date ∈ rest := by
      intro r hr
      have hmem := List.mem_of_mem_filter hr
      have hne : ¬ r.date = d := by
        have := List.of_mem_filter hr
        simpa using this
      have := hcov r hmem
      cases List.mem_cons.mp this with
      | inl h => exact absurd h hne
      | inr h => exact h
    have hsame : ∀ d' ∈ rest,
        (l.filter (fun r => r.date = d')).length
          = (l'.filter (fun r => r.date = d')).length := by
      intro d' hd'
      have hdd : d' ≠ d := fun h => hdr (h ▸ hd')
      rw [hl', List.filter_filter]
      congr 1
      apply List.filter_congr
      intro r _
      by_cases hr : r.date = d'
      · simp [hr, hdd]
      · simp [hr]
    have hmapeq :
        (rest.map (fun d' => (l.filter (fun r => r.date = d')).length))
          = (rest.map (fun d' => (l'.filter (fun r => r.date = d')).length)) := by
      apply List.map_congr_left
      intro d' hd'
      exact hsame d' hd'
    calc ((d :: rest).map (fun d' => (l.filter (fun r => r.date = d')).length)).sum
        = (l.filter (fun r => r.date = d)).length
          + (rest.map (fun d' => (l.filter (fun r => r.date = d')).length)).sum := by
          simp [List.sum_cons]
      _ = (l.filter (fun r => r.date = d)).length + l'.length := by
          rw [hmapeq, ih l' hnd' hcov']
      _ = l.length := by
          rw [hl']
          have := length_filter_split (fun r => decide (r.date = d)) l
          simpa using this

theorem sum_dailyCounts (l : List AttendanceRecord) :
    (dailyCounts l).sum = l.length := by
  apply sum_counts_of_cover
  · exact List.nodup_dedup _
  · intro r hr
    unfold groupDays
    rw [List.mem_dedup]
    exact List.mem_map.mpr ⟨r, hr, rfl⟩

/-- Claim C3 amended: the reported average daily attendance is the mean of
the daily present counts over only those days of the trailing window that
have at least one record — days with zero attendance are excluded from the
denominator — rounded to one decimal.  Presence counts `[3,0,2,0,0,0,1]`
therefore yield `6/3 = 2.0`, not `6/7 ≈ 0.9`. -/
theorem avg_attendance_over_nonempty_days (db : DBState) (today : Int)
    (h : weeklyFiltered db.attendance (today - 7) ≠ []) :
    (get_attendance_summary db today).avg_attendance =
      pyRound1 (((weeklyFiltered db.attendance (today - 7)).length : ℚ) /
        ((groupDays (weeklyFiltered db.attendance (today - 7))).length : ℚ)) := by
  set f := weeklyFiltered db.attendance (today - 7) with hf
  have hdays : groupDays f ≠ [] := by
    intro hempty
    apply h
    unfold groupDays at hempty
    have h1 : f.map (fun r => r.date) = [] := (List.dedup_eq_nil _).mp hempty
    exact List.map_eq_nil_iff.mp h1
  have hlen : (dailyCounts f).length = (groupDays f).length := by
    unfold dailyCounts
    exact List.length_map _ _
  have hlenne : ¬ (dailyCounts f).length = 0 := by
    rw [hlen]
    exact fun h0 => hdays (List.length_eq_zero.mp h0)
  show pyRound1 (avgAttendance db.attendance (today - 7)) = _
  unfold avgAttendance
  rw [← hf, if_neg hlenne, sum_dailyCounts, hlen]

/-- Witness for the amended C3: on the example week the reported average is
`6/3 = 2.0`. -/
theorem avg_attendance_over_nonempty_days_witness :
    (get_attendance_summary exampleWeekDB 7).avg_attendance = 2 := by
  have h := avg_attendance_over_nonempty_days exampleWeekDB 7 (by decide)
  rw [h]
  have h6 : (weeklyFiltered exampleWeekDB.attendance ((7 : Int) - 7)).length = 6 := by
    decide
  have h3 : (groupDays (weeklyFiltered exampleWeekDB.attendance ((7 : Int) - 7))).length
      = 3 := by decide
  rw [h6, h3]
  have hq : ((6 : ℕ) : ℚ) / ((3 : ℕ) : ℚ) = 2 := by norm_num
  rw [hq, pyRound1_two]

/-! ### Matcher (`FaceRecognitionSystem.recognize_faces`, app.py lines
240-258).  The external `face_recognition` library supplies the distance
list `face_distance(known_face_encodings, face_encoding)` — one entry per
gallery member, in gallery order — so the matcher is embedded as a function
of that list.  `compare_faces(..., tolerance)` is `distance ≤ tolerance`
pointwise, and `np.argmin` returns the index of the first minimum. -/

/-- `np.argmin` accumulator: carries the running (value, index) pair;
a strict `<` keeps the first occurrence of the minimum. -/
def argminAux : List ℚ → Nat → ℚ × Nat → ℚ × Nat
  | [], _, best => best
  | d :: ds, i, best => argminAux ds (i + 1) (if d < best.1 then (d, i) else best)

/-- `np.argmin`: index of the first minimal element (0 on an empty list,
where NumPy would raise — the code only calls it on nonempty galleries). -/
def argmin : List ℚ → Nat
  | [] => 0
  | d :: ds => (argminAux ds 1 (d, 0)).2

/-- One iteration of the per-face loop of `recognize_faces` (app.py lines
240-258): `matches = compare_faces(gallery, probe, tolerance)`, then the
single nearest neighbour `np.argmin(face_distances)` is accepted exactly
when `matches[best_match_index]` holds; an empty gallery or a rejected
nearest neighbour yields `("Unknown", None)`. -/
def recognizeFace (names ids : List String) (distances : List ℚ)
    (tolerance : ℚ) : String × Option String :=
  if distances.isEmpty then ("Unknown", none)
  else
    if (distances.map (fun d => decide (d ≤ tolerance))).getD
        (argmin distances) false then
      (names.getD (argmin distances) "Unknown", ids.get? (argmin distances))
    else ("Unknown", none)

theorem argminAux_min : ∀ (ds : List ℚ) (i : Nat) (b : ℚ × Nat),
    (argminAux ds i b).1 ≤ b.1 ∧ ∀ d ∈ ds, (argminAux ds i b).1 ≤ d := by
  intro ds
  induction ds with
  | nil =>
    intro i b
    exact ⟨le_refl _, by simp⟩
  | cons d ds ih =>
    intro i b
    simp only [argminAux]
    obtain ⟨h1, h2⟩ := ih (i + 1) (if d < b.1 then (d, i) else b)
    have hb1 : (if d < b.1 then (d, i) else b).1 ≤ b.1 := by
      by_cases hd : d < b.1
      · rw [if_pos hd]
        exact le_of_lt hd
      · rw [if_neg hd]
    have hbd : (if d < b.1 then (d, i) else b).1 ≤ d := by
      by_cases hd : d < b.1
      · rw [if_pos hd]
      · rw [if_neg hd]
        exact le_of_not_lt hd
    refine ⟨le_trans h1 hb1, ?_⟩
    intro x hx
    rcases List.mem_cons.mp hx with hx | hx
    · rw [hx]
      exact le_trans h1 hbd
    · exact h2 x hx

theorem argminAux_index : ∀ (ds : List ℚ) (i : Nat) (b : ℚ × Nat),
    argminAux ds i b = b ∨
    ∃ j, j < ds.length ∧ (argminAux ds i b).2 = i + j ∧
      (argminAux ds i b).1 = ds.getD j 0 := by
  intro ds
  induction ds with
  | nil =>
    intro i b
    exact Or.inl rfl
  | cons d ds ih =>
    intro i b
    simp only [argminAux]
    rcases ih (i + 1) (if d < b.1 then (d, i) else b) with heq | ⟨j, hj, h2, h1⟩
    · rw [heq]
      by_cases hd : d < b.1
      · rw [if_pos hd]
        exact Or.inr ⟨0, by simp, by simp, by simp⟩
      · rw [if_neg hd]
        exact Or.inl rfl
    · refine Or.inr ⟨j + 1, by simpa using Nat.succ_lt_succ hj, ?_, ?_⟩
      · rw [h2]
        omega
      · rw [h1]
        simp

theorem argmin_spec (l : List ℚ) (h : l ≠ []) :
    argmin l < l.length ∧ ∀ d ∈ l, l.getD (argmin l) 0 ≤ d := by
  cases l with
  | nil => exact absurd rfl h
  | cons d ds =>
    simp only [argmin]
    obtain ⟨hmin1, hmin2⟩ := argminAux_min ds 1 (d, 0)
    rcases argminAux_index ds 1 (d, 0) with heq | ⟨j, hj, h2, h1⟩
    · rw [heq]
      refine ⟨by simp, ?_⟩
      intro x hx
      simp only [List.getD_cons_zero]
      rcases List.mem_cons.mp hx with hx | hx
      · rw [hx]
      · have hx2 := hmin2 x hx
        rw [heq] at hx2
        exact hx2
    · constructor
      · rw [h2]
        simp only [List.length_cons]
        omega
      · intro x hx
        rw [h2]
        have hget : (d :: ds).getD (1 + j) 0 = ds.getD j 0 := by
          rw [Nat.add_comm]
          simp
        rw [hget, ← h1]
        rcases List.mem_cons.mp hx with hx | hx
        · rw [hx]
          exact hmin1
        · exact hmin2 x hx

theorem getD_map_decide_le (l : List ℚ) (tol : ℚ) (n : Nat)
    (hn : n < l.length) :
    (l.map (fun d => decide (d ≤ tol))).getD n false =
      decide (l.getD n 0 ≤ tol) := by
  induction l generalizing n with
  | nil => simp at hn
  | cons d ds ih =>
    cases n with
    | zero => simp
    | succ m =>
      have hm : m < ds.length := by simpa using Nat.lt_of_succ_lt_succ hn
      simpa using ih m hm

/-- Claim C2: the matcher accepts the single nearest gallery neighbour
exactly when its distance is within the tolerance `0.6`: the entry at
`argmin` is minimal among all distances; if it is `≤ 3/5` (in particular
when it equals `3/5` exactly) the match is accepted with that neighbour's
name and id; if it is `> 3/5` the probe is reported `("Unknown", none)`;
and an empty gallery also yields `("Unknown", none)` rather than failing. -/
theorem matcher_accepts_nearest_within_tolerance (names ids : List String)
    (distances : List ℚ) (hne : distances ≠ []) :
    recognizeFace names ids [] (3 / 5) = ("Unknown", none) ∧
    argmin distances < distances.length ∧
    (∀ d ∈ distances, distances.getD (argmin distances) 0 ≤ d) ∧
    (distances.getD (argmin distances) 0 ≤ 3 / 5 →
      recognizeFace names ids distances (3 / 5) =
        (names.getD (argmin distances) "Unknown",
         ids.get? (argmin distances))) ∧
    (3 / 5 < distances.getD (argmin distances) 0 →
      recognizeFace names ids distances (3 / 5) = ("Unknown", none)) := by
  obtain ⟨hlt, hmin⟩ := argmin_spec distances hne
  refine ⟨rfl, hlt, hmin, ?_, ?_⟩
  · intro hle
    unfold recognizeFace
    rw [if_neg (by simp [hne]), getD_map_decide_le distances (3 / 5) _ hlt,
      if_pos (decide_eq_true hle)]
  · intro hgt
    unfold recognizeFace
    rw [if_neg (by simp [hne]), getD_map_decide_le distances (3 / 5) _ hlt,
      if_neg (by simpa using not_le.mpr hgt)]

/-- Witness for C2: with gallery distances `[0.6, 0.9]` the nearest
neighbour sits exactly at the tolerance and is accepted; with `[0.61, 0.9]`
the nearest neighbour is `tolerance + ε` away and the probe is Unknown. -/
theorem matcher_accepts_nearest_within_tolerance_witness :
    recognizeFace ["Alice", "Bob"] ["E1", "E2"] [3 / 5, 9 / 10] (3 / 5)
      = ("Alice", some "E1") ∧
    recognizeFace ["Alice", "Bob"] ["E1", "E2"] [61 / 100, 9 / 10] (3 / 5)
      = ("Unknown", none) := by
  have ha : argmin [(3 : ℚ) / 5, 9 / 10] = 0 := by
    norm_num [argmin, argminAux]
  have hb : argmin [(61 : ℚ) / 100, 9 / 10] = 0 := by
    norm_num [argmin, argminAux]
  constructor
  · have h := (matcher_accepts_nearest_within_tolerance ["Alice", "Bob"]
      ["E1", "E2"] [3 / 5, 9 / 10] (by simp)).2.2.2.1
    rw [ha] at h
    have h2 := h (by norm_num)
    simpa using h2
  · have h := (matcher_accepts_nearest_within_tolerance ["Alice", "Bob"]
      ["E1", "E2"] [61 / 100, 9 / 10] (by simp)).2.2.2.2
    rw [hb] at h
    exact h (by norm_num)

/-! ### FaceRecognitionSystem state, enrollment and removal
(app.py lines 166-218 and 306-327) -/

/-- The in-memory state of `FaceRecognitionSystem`: the database plus the
three parallel lists filled by `load_known_faces`. -/
structure FaceSystem where
  db : DBState
  known_face_encodings : List (List ℚ)
  known_face_names : List String
  known_employee_ids : List String
deriving DecidableEq, Repr

/-- `FaceRecognitionSystem.load_known_faces` (app.py lines 177-182):
repopulates the three in-memory lists from `get_employee_encodings`
(app.py lines 83-98), which reads the `employees` table in row order. -/
def load_known_faces (fs : FaceSystem) : FaceSystem :=
  { fs with
    known_face_encodings := fs.db.employees.map (fun e => e.face_encoding)
    known_face_names := fs.db.employees.map (fun e => e.name)
    known_employee_ids := fs.db.employees.map (fun e => e.employee_id) }

/-- The outcome of the external image loading and face detection steps in
`add_new_employee`: whether the file exists (`os.path.exists`), the pixel
count (`image.size`), the list of detected face locations
(`face_recognition.face_locations`), and the encoding of the first detected
face (`face_recognition.face_encodings(...)[0]`), all supplied by external
collaborators. -/
structure Image where
  file_exists : Bool
  size : Nat
  face_locations : List (Int × Int × Int × Int)
  encoding : List ℚ
deriving DecidableEq, Repr

/-- `DatabaseManager.add_employee` (app.py lines 65-76): the `INSERT` raises
`sqlite3.IntegrityError` exactly when `employee_id` violates the `UNIQUE`
constraint, in which case `False` is returned and nothing is stored. -/
def add_employee (db : DBState) (eid nm em dept : String)
    (enc : List ℚ) : Bool × DBState :=
  if db.employees.any (fun e => e.employee_id = eid) then (false, db)
  else (true, { db with employees := db.employees ++ [⟨eid, nm, em, dept, enc⟩] })

/-- `FaceRecognitionSystem.add_new_employee` (app.py lines 184-218):
precondition checks in source order, short-circuiting; on success the new
row is inserted and `load_known_faces` refreshes the in-memory index. -/
def add_new_employee (fs : FaceSystem) (eid nm em dept : String)
    (img : Image) : MarkResult × FaceSystem :=
  if img.file_exists = false then (⟨false, "Image file not found"⟩, fs)
  else if img.size = 0 then (⟨false, "Invalid or corrupt image file"⟩, fs)
  else if img.face_locations.length = 0 then
    (⟨false, "No face detected in the image. Please use a clear front-facing photo"⟩, fs)
  else if 1 < img.face_locations.length then
    (⟨false, "Multiple faces detected. Please use an image with only one face"⟩, fs)
  else
    match add_employee fs.db eid nm em dept img.encoding with
    | (true, db2) => (⟨true, "Employee added successfully"⟩,
        load_known_faces { fs with db := db2 })
    | (false, _) => (⟨false, "Employee ID already exists"⟩, fs)

/-- The `delete_employee` route (app.py lines 306-327): both `DELETE`
statements run and are committed unconditionally; only when the employee
row count was positive is `load_known_faces` re-run and success returned. -/
def delete_employee (fs : FaceSystem) (eid : String) : Bool × FaceSystem :=
  let db2 : DBState :=
    { employees := fs.db.employees.filter (fun e => ¬ e.employee_id = eid)
      attendance := fs.db.attendance.filter (fun r => ¬ r.employee_id = eid) }
  if fs.db.employees.any (fun e => e.employee_id = eid) then
    (true, load_known_faces { fs with db := db2 })
  else
    (false, { fs with db := db2 })

/-- Any identity the matcher reports comes from the in-memory id list. -/
theorem recognizeFace_id_mem (names ids : List String) (distances : List ℚ)
    (tol : ℚ) (x : String)
    (h : (recognizeFace names ids distances tol).2 = some x) : x ∈ ids := by
  unfold recognizeFace at h
  by_cases he : distances.isEmpty
  · rw [if_pos he] at h
    exact absurd h (by simp)
  · rw [if_neg he] at h
    by_cases hm : (distances.map (fun d => decide (d ≤ tol))).getD
        (argmin distances) false = true
    · rw [if_pos hm] at h
      simp only at h
      exact List.get?_mem h
    · rw [if_neg hm] at h
      exact absurd h (by simp)

/-- Claim C7: removing an enrolled identity deletes all of its attendance
records and removes it from the reloaded in-memory index, so no recognition
query answered after the removal can return that identity. -/
theorem cascade_delete (fs : FaceSystem) (eid : String)
    (h : fs.db.employees.any (fun e => e.employee_id = eid) = true) :
    (delete_employee fs eid).1 = true ∧
    (∀ r ∈ (delete_employee fs eid).2.db.attendance, r.employee_id ≠ eid) ∧
    eid ∉ (delete_employee fs eid).2.known_employee_ids ∧
    (∀ (distances : List ℚ) (tol : ℚ),
      (recognizeFace (delete_employee fs eid).2.known_face_names
        (delete_employee fs eid).2.known_employee_ids distances tol).2
        ≠ some eid) := by
  have hpos : delete_employee fs eid =
      (true, load_known_faces
        { fs with db :=
          { employees := fs.db.employees.filter (fun e => ¬ e.employee_id = eid)
            attendance := fs.db.attendance.filter (fun r => ¬ r.employee_id = eid) } }) := by
    unfold delete_employee
    rw [if_pos h]
  have hids : (delete_employee fs eid).2.known_employee_ids =
      (fs.db.employees.filter (fun e => ¬ e.employee_id = eid)).map
        (fun e => e.employee_id) := by
    rw [hpos]
    rfl
  have hnotmem : eid ∉ (delete_employee fs eid).2.known_employee_ids := by
    rw [hids]
    intro hmem
    obtain ⟨e, he, heq⟩ := List.mem_map.mp hmem
    have h2 := List.of_mem_filter he
    simp at h2
    exact h2 heq
  refine ⟨by rw [hpos], ?_, hnotmem, ?_⟩
  · intro r hr
    rw [hpos] at hr
    simp only [load_known_faces] at hr
    have h3 := List.of_mem_filter hr
    simpa using h3
  · intro distances tol hsome
    exact hnotmem (recognizeFace_id_mem _ _ _ _ _ hsome)

/-- Witness for C7: deleting the only enrolled employee E1 succeeds, leaves
no attendance rows for E1, and E1 is gone from the in-memory id list. -/
theorem cascade_delete_witness :
    (delete_employee
      ⟨⟨[⟨"E1", "Alice", "a@x", "Eng", [1]⟩],
        [⟨"E1", some 1, none, 0, "present"⟩]⟩,
       [[1]], ["Alice"], ["E1"]⟩ "E1").1 = true ∧
    (delete_employee
      ⟨⟨[⟨"E1", "Alice", "a@x", "Eng", [1]⟩],
        [⟨"E1", some 1, none, 0, "present"⟩]⟩,
       [[1]], ["Alice"], ["E1"]⟩ "E1").2.db.attendance = [] := by
  have h := cascade_delete
    ⟨⟨[⟨"E1", "Alice", "a@x", "Eng", [1]⟩],
      [⟨"E1", some 1, none, 0, "present"⟩]⟩,
     [[1]], ["Alice"], ["E1"]⟩ "E1" (by simp)
  exact ⟨h.1, by simp [delete_employee, load_known_faces]⟩

/-- Counterexample to claim C6: with NO employees enrolled at all, a
check-in for the unenrolled id "GHOST" succeeds and creates an attendance
record referencing a nonexistent identity — `mark_attendance` never
consults the `employees` table (and SQLite foreign keys are not enabled),
so the referential-integrity invariant is not preserved. -/
theorem attendance_for_unenrolled_identity :
    (mark_attendance ⟨[], []⟩ "GHOST" "check_in" 0 1).1.success = true ∧
    (mark_attendance ⟨[], []⟩ "GHOST" "check_in" 0 1).2.attendance
      = [⟨"GHOST", some 1, none, 0, "present"⟩] ∧
    (mark_attendance ⟨[], []⟩ "GHOST" "check_in" 0 1).2.employees = [] :=
  ⟨rfl, rfl, rfl⟩

/-- Claim C6 amended: identity removal does cascade — after
`delete_employee` no attendance record references the removed identity —
but recording attendance does NOT enforce enrollment: a check-in for an
identity_id enrolled nowhere in the employees table still succeeds and
creates a record referencing that nonexistent identity. -/
theorem cascade_but_no_enrollment_check (fs : FaceSystem) (db : DBState)
    (eid ghost : String) (today ct : Int)
    (hg : findRecord db.attendance ghost today = none)
    (hne : ∀ e ∈ db.employees, e.employee_id ≠ ghost) :
    (∀ r ∈ (delete_employee fs eid).2.db.attendance, r.employee_id ≠ eid) ∧
    (mark_attendance db ghost "check_in" today ct).1.success = true ∧
    findRecord (mark_attendance db ghost "check_in" today ct).2.attendance
      ghost today = some ⟨ghost, some ct, none, today, "present"⟩ := by
  refine ⟨?_, ?_, ?_⟩
  · intro r hr
    have hr2 : r ∈ fs.db.attendance.filter (fun a => ¬ a.employee_id = eid) := by
      unfold delete_employee at hr
      by_cases hc : fs.db.employees.any (fun e => e.employee_id = eid) = true
      · rw [if_pos hc] at hr
        exact hr
      · rw [if_neg hc] at hr
        exact hr
    have h3 := List.of_mem_filter hr2
    simpa using h3
  · rw [((markAtt_none_checkin db ghost today ct hg).1)]
  · exact (markAtt_none_checkin db ghost today ct hg).2

/-- Witness for the amended C6: concrete deletion of E1 plus a ghost
check-in on a database whose only employee is E2. -/
theorem cascade_but_no_enrollment_check_witness :
    (mark_attendance ⟨[⟨"E2", "Bob", "b@x", "Ops", [2]⟩], []⟩
        "GHOST2" "check_in" 3 4).1.success = true := by
  have h := cascade_but_no_enrollment_check
    ⟨⟨[], []⟩, [], [], []⟩ ⟨[⟨"E2", "Bob", "b@x", "Ops", [2]⟩], []⟩
    "E1" "GHOST2" 3 4 rfl (by simp)
  exact h.2.1

/-- Claim C8: `add_new_employee` checks its preconditions in source order,
short-circuiting on the first failure — the image must decode (file exists,
nonzero size), exactly one face must be detected (zero faces → "No face
detected…", more than one → "Multiple faces detected…"), and only then is
the duplicate-id check performed by the insert; an image with two detected
faces is rejected with the multiple-faces message and no Identity is
created, regardless of the other inputs. -/
theorem enrollment_precondition_order (fs : FaceSystem)
    (eid nm em dept : String) (img : Image) :
    (img.file_exists = false →
      add_new_employee fs eid nm em dept img =
        (⟨false, "Image file not found"⟩, fs)) ∧
    (img.file_exists = true → img.size = 0 →
      add_new_employee fs eid nm em dept img =
        (⟨false, "Invalid or corrupt image file"⟩, fs)) ∧
    (img.file_exists = true → img.size ≠ 0 → img.face_locations.length = 0 →
      add_new_employee fs eid nm em dept img =
        (⟨false, "No face detected in the image. Please use a clear front-facing photo"⟩, fs)) ∧
    (img.file_exists = true → img.size ≠ 0 → 1 < img.face_locations.length →
      add_new_employee fs eid nm em dept img =
        (⟨false, "Multiple faces detected. Please use an image with only one face"⟩, fs) ∧
      (add_new_employee fs eid nm em dept img).2.db.employees = fs.db.employees) ∧
    (img.file_exists = true → img.size ≠ 0 → img.face_locations.length = 1 →
      fs.db.employees.any (fun e => e.employee_id = eid) = true →
      add_new_employee fs eid nm em dept img =
        (⟨false, "Employee ID already exists"⟩, fs)) := by
  refine ⟨?_, ?_, ?_, ?_, ?_⟩
  · intro h1
    simp [add_new_employee, h1]
  · intro h1 h2
    simp [add_new_employee, h1, h2]
  · intro h1 h2 h3
    simp [add_new_employee, h1, h2, h3]
  · intro h1 h2 h3
    have h0 : ¬ img.face_locations.length = 0 := by omega
    constructor
    · simp [add_new_employee, h1, h2, h0, h3]
    · simp [add_new_employee, h1, h2, h0, h3]
  · intro h1 h2 h3 h4
    have h0 : ¬ 1 < img.face_locations.length := by omega
    simp only [add_new_employee, h1, h2, h3, h0]
    simp only [Bool.false_eq_true, reduceIte, one_ne_zero]
    unfold add_employee
    rw [if_pos h4]
    simp

/-- Witness for C8: a two-face image is rejected with the multiple-faces
message and the employees table is untouched, even though the id is free. -/
theorem enrollment_precondition_order_witness :
    add_new_employee ⟨⟨[], []⟩, [], [], []⟩ "E9" "Carol" "c@x" "HR"
        ⟨true, 100, [(0, 0, 1, 1), (2, 2, 3, 3)], [5]⟩ =
      (⟨false, "Multiple faces detected. Please use an image with only one face"⟩,
       ⟨⟨[], []⟩, [], [], []⟩) := by
  have h := (enrollment_precondition_order ⟨⟨[], []⟩, [], [], []⟩
    "E9" "Carol" "c@x" "HR" ⟨true, 100, [(0, 0, 1, 1), (2, 2, 3, 3)], [5]⟩).2.2.2.1
  exact (h rfl (by decide) (by decide)).1

/-! ### Frame downscaling and coordinate rescale
(`recognize_faces` app.py lines 221-228, `gen_frames` app.py lines 457-461) -/

/-- The downscale factor chosen in `recognize_faces` (app.py lines
221-228): frames wider than 1024 pixels are processed at
`scale = 1024 / width`, others at `scale = 1.0`. -/
def computeScale (width : Nat) : ℚ :=
  if 1024 < width then 1024 / (width : ℚ) else 1

/-- Python `int(...)`: truncation toward zero, as applied to the divided
coordinates in `gen_frames`. -/
def pyInt (q : ℚ) : Int := Int.tdiv q.num q.den

/-- The per-face rescale in `gen_frames` (app.py lines 457-461): each of
`top, right, bottom, left` is divided by `scale` and truncated. -/
def rescaleRegion (s : ℚ) (reg : Int × Int × Int × Int) :
    Int × Int × Int × Int :=
  (pyInt ((reg.1 : ℚ) / s), pyInt ((reg.2.1 : ℚ) / s),
   pyInt ((reg.2.2.1 : ℚ) / s), pyInt ((reg.2.2.2 : ℚ) / s))

theorem pyInt_intCast (c : Int) : pyInt (c : ℚ) = c := by
  unfold pyInt
  rw [Rat.num_intCast, Rat.den_intCast]
  simp [Int.tdiv_one]

/-- Claim C9: detected face regions are reported back in the original
frame's coordinate space by dividing every detected coordinate by the
scale factor: frames of width ≤ 1024 are not downscaled and regions pass
through unchanged; a width-2048 frame gets scale `0.5` and a region
`(10,10,50,50)` found in the downscaled frame is reported as
`(20,20,100,100)`; in general for a downscaled frame dividing by
`scale = 1024/width` is multiplying by `width/1024`. -/
theorem coordinate_rescale (w : Nat) (t r b l : Int) :
    (w ≤ 1024 → rescaleRegion (computeScale w) (t, r, b, l) = (t, r, b, l)) ∧
    computeScale 2048 = 1 / 2 ∧
    rescaleRegion (computeScale 2048) (10, 10, 50, 50) = (20, 20, 100, 100) ∧
    (1024 < w → ∀ c : Int,
      pyInt ((c : ℚ) / computeScale w) =
        pyInt (((c : ℚ) * (w : ℚ)) / 1024)) := by
  have hs2 : computeScale 2048 = 1 / 2 := by
    unfold computeScale
    norm_num
  refine ⟨?_, hs2, ?_, ?_⟩
  · intro hw
    have hs : computeScale w = 1 := by
      unfold computeScale
      rw [if_neg (by omega)]
    unfold rescaleRegion
    rw [hs]
    simp only [div_one]
    rw [pyInt_intCast, pyInt_intCast, pyInt_intCast, pyInt_intCast]
  · unfold rescaleRegion
    rw [hs2]
    have h10 : (((10 : Int) : ℚ)) / (1 / 2) = ((20 : Int) : ℚ) := by norm_num
    have h50 : (((50 : Int) : ℚ)) / (1 / 2) = ((100 : Int) : ℚ) := by norm_num
    simp only [h10, h50, pyInt_intCast]
  · intro hw c
    congr 1
    have hs : computeScale w = 1024 / (w : ℚ) := by
      unfold computeScale
      rw [if_pos hw]
    rw [hs, div_div_eq_mul_div]

/-- Witness for C9: a width-512 frame passes a region through unchanged,
and in a width-2048 frame dividing by the scale is multiplying by 2. -/
theorem coordinate_rescale_witness :
    rescaleRegion (computeScale 512) (7, 8, 9, 10) = (7, 8, 9, 10) ∧
    pyInt (((10 : Int) : ℚ) / computeScale 2048) =
      pyInt ((((10 : Int) : ℚ) * ((2048 : Nat) : ℚ)) / 1024) := by
  constructor
  · exact (coordinate_rescale 512 7 8 9 10).1 (by norm_num)
  · exact (coordinate_rescale 2048 0 0 0 0).2.2.2 (by norm_num) 10

/-! ### Two racing check-in calls (claim C4).  Each `mark_attendance`
call issues two separate SQLite statements — a `SELECT` (app.py line 105)
and, on the no-record branch, an `INSERT` (line 117) — over its own
connection, with no lock and no UNIQUE constraint on
`(employee_id, date)`; an interleaving is a schedule of these atomic
statements. -/

/-- The local state of one in-flight `check_in` call: the row its `SELECT`
observed (once executed) and its eventual result. -/
structure CheckInCall where
  observed : Option (Option AttendanceRecord)
  result : Option MarkResult
deriving DecidableEq, Repr

/-- Shared attendance table plus the two calls' local states. -/
structure RaceState where
  atts : List AttendanceRecord
  c1 : CheckInCall
  c2 : CheckInCall
deriving DecidableEq, Repr

/-- One atomic statement of a `check_in` call: first the `SELECT` records
what it saw; then the call acts on the observed value exactly as the code's
branches do — `INSERT` plus success if no row was seen, the rejection
result otherwise.  A finished call does nothing. -/
def stepCall (atts : List AttendanceRecord) (c : CheckInCall)
    (eid : String) (today ct : Int) : List AttendanceRecord × CheckInCall :=
  match c.observed with
  | none => (atts, { c with observed := some (findRecord atts eid today) })
  | some obs =>
    match c.result with
    | some _ => (atts, c)
    | none =>
      match obs with
      | some _ =>
        (atts, { c with result := some ⟨false, "Attendance already recorded for today"⟩ })
      | none =>
        (atts ++ [⟨eid, some ct, none, today, "present"⟩],
         { c with result := some ⟨true, "Check-in recorded successfully"⟩ })

/-- Run a schedule: `true` lets call 1 take its next atomic statement,
`false` lets call 2. -/
def runRace (eid : String) (today ct1 ct2 : Int) :
    List Bool → RaceState → RaceState
  | [], s => s
  | bit :: rest, s =>
    if bit then
      runRace eid today ct1 ct2 rest
        { s with atts := (stepCall s.atts s.c1 eid today ct1).1,
                 c1 := (stepCall s.atts s.c1 eid today ct1).2 }
    else
      runRace eid today ct1 ct2 rest
        { s with atts := (stepCall s.atts s.c2 eid today ct2).1,
                 c2 := (stepCall s.atts s.c2 eid today ct2).2 }

/-- Counterexample to claim C4: under the interleaving in which both
`SELECT`s execute before either `INSERT`, BOTH concurrent check-in calls
succeed and two records are created for the same (identity, date) — the
transition is not atomic. -/
theorem concurrent_checkin_both_succeed :
    (runRace "E1" 0 1 2 [true, false, true, false]
        ⟨[], ⟨none, none⟩, ⟨none, none⟩⟩).c1.result
      = some ⟨true, "Check-in recorded successfully"⟩ ∧
    (runRace "E1" 0 1 2 [true, false, true, false]
        ⟨[], ⟨none, none⟩, ⟨none, none⟩⟩).c2.result
      = some ⟨true, "Check-in recorded successfully"⟩ ∧
    (runRace "E1" 0 1 2 [true, false, true, false]
        ⟨[], ⟨none, none⟩, ⟨none, none⟩⟩).atts.length = 2 := by
  refine ⟨by decide, by decide, by decide⟩

/-- Claim C4 amended: the code itself provides no atomicity for the
per-(identity, date) transition — both calls succeed under the interleaving
of the counterexample.  Only when the two calls run serially (each call's
SELECT and INSERT adjacent) does exactly one check-in succeed while the
other observes the rejection path. -/
theorem serial_checkin_exactly_one (atts : List AttendanceRecord)
    (eid : String) (today ct1 ct2 : Int)
    (h : findRecord atts eid today = none) :
    (runRace eid today ct1 ct2 [true, true, false, false]
        ⟨atts, ⟨none, none⟩, ⟨none, none⟩⟩).c1.result
      = some ⟨true, "Check-in recorded successfully"⟩ ∧
    (runRace eid today ct1 ct2 [true, true, false, false]
        ⟨atts, ⟨none, none⟩, ⟨none, none⟩⟩).c2.result
      = some ⟨false, "Attendance already recorded for today"⟩ := by
  have h2 : findRecord (atts ++ [⟨eid, some ct1, none, today, "present"⟩])
      eid today = some ⟨eid, some ct1, none, today, "present"⟩ :=
    findRecord_append_single atts eid today _ h ⟨rfl, rfl⟩
  simp only [runRace, stepCall, h, h2]
  exact ⟨rfl, rfl⟩

/-- Witness for the amended C4: the serial schedule on an empty table. -/
theorem serial_checkin_exactly_one_witness :
    (runRace "E1" 0 1 2 [true, true, false, false]
        ⟨[], ⟨none, none⟩, ⟨none, none⟩⟩).c1.result
      = some ⟨true, "Check-in recorded successfully"⟩ ∧
    (runRace "E1" 0 1 2 [true, true, false, false]
        ⟨[], ⟨none, none⟩, ⟨none, none⟩⟩).c2.result
      = some ⟨false, "Attendance already recorded for today"⟩ :=
  serial_checkin_exactly_one [] "E1" 0 1 2 rfl

end FaceAttendance
